import Mathlib

/-!
Verification development for the Sales Dashboard application (`src/app.py`):
a password-gated Streamlit page that runs canned or custom SQL against an
embedded SQLite file and translates natural-language questions to SQL via a
hosted chat-completion service.

The embedding below models, faithfully to the Python source:
  * the Python string primitives used by the app (`str.strip`, slicing,
    `startswith`, `lower`);
  * the fence-stripping block applied to the model's reply;
  * the query dispatcher, the query executor and its per-action error
    handling;
  * the Ask-AI handler (empty-question guard, single hosted call, error
    banner plus stop, fence stripping, execution);
  * process-global memoization of the database connection
    (`st.cache_resource`) and of the customer-name list (`st.cache_data`),
    as explicit state passing;
  * the startup key check that halts rendering.

External collaborators (the SQLite engine, the hosted model, the three
helper functions imported from `mini_project2`) are parameters of the
embedding: theorems quantify over them, so nothing is assumed about their
behavior beyond what the call sites in `src/app.py` determine.
-/

namespace SalesDashboard

/-! ### Python string primitives -/

/-- Python `str.strip(chars)` on a character list: remove the maximal
leading and trailing runs of characters satisfying `p`. -/
def pyStripList (p : Char → Bool) (l : List Char) : List Char :=
  ((l.dropWhile p).reverse.dropWhile p).reverse

/-- Python `str.strip()` (no argument): strip surrounding whitespace. -/
def pyStripWs (s : String) : String :=
  ⟨pyStripList Char.isWhitespace s.data⟩

/-- The backtick character, U+0060. -/
def backtick : Char := Char.ofNat 96

/-- Python `str.strip("\x60")`: strip all leading and trailing backticks. -/
def pyStripTicks (s : String) : String :=
  ⟨pyStripList (· == backtick) s.data⟩

/-- Python `s.startswith("\x60\x60\x60")`. -/
def startsWith3Ticks (s : String) : Bool :=
  (List.replicate 3 backtick).isPrefixOf s.data

/-- Python `s.lower().startswith("sql")`. -/
def lowerStartsWithSql (s : String) : Bool :=
  ['s', 'q', 'l'].isPrefixOf (s.data.map Char.toLower)

/-- Python `s[3:]`. -/
def pyDrop3 (s : String) : String :=
  ⟨s.data.drop 3⟩

/-! ### Fence stripping (src/app.py lines 180-183) -/

/-- Lines 180-183 of `src/app.py`: if the reply starts with a triple
backtick, strip all surrounding backticks and whitespace, and if the rest
begins (case-insensitively) with `sql`, drop those three characters and
strip again. -/
def stripFenceBlock (s : String) : String :=
  if startsWith3Ticks s then
    let s1 := pyStripWs (pyStripTicks s)
    if lowerStartsWithSql s1 then pyStripWs (pyDrop3 s1) else s1
  else s

/-- Line 173 followed by lines 180-183: the whole cleaning pipeline
applied to the first completion's message content. -/
def sql_from_ai_clean (content : String) : String :=
  stripFenceBlock (pyStripWs content)

/-- Spec-side view of the inner language-tag step, for comparison with
`stripFenceBlock`: on already-stripped text, drop a leading
case-insensitive `sql` tag and strip again. -/
def sqlTagStrip (s : String) : String :=
  if lowerStartsWithSql s then pyStripWs (pyDrop3 s) else s

/-! ### Data model: connections, tables, results -/

/-- Connection handles are identified by the order in which they were
opened; the app only ever passes them around. -/
abbrev Conn := Nat

/-- Tabular result of `pd.read_sql_query`: named columns and rows. -/
structure DataFrame where
  cols : List String
  rows : List (List String)
deriving DecidableEq

/-- The SQLite engine as seen through `pd.read_sql_query`: a SQL string
either yields a table or raises with an error message. The engine is
external, so it is a parameter of the embedding. -/
abbrev Engine := String → Except String DataFrame

/-- Function `run_query` (src/app.py lines 46-48): execute a SQL string on
the shared connection. -/
def run_query (engine : Engine) (sql : String) : Except String DataFrame :=
  engine sql

/-! ### Connection provider (src/app.py lines 26-30) -/

/-- Process-global state of the `st.cache_resource` memo around
`get_connection`, together with a count of how many `sqlite3.connect`
calls have actually happened. -/
structure ConnState where
  cached : Option Conn
  openedCount : Nat
deriving DecidableEq

/-- State at process start: nothing cached, no connection opened. -/
def initConnState : ConnState := ⟨none, 0⟩

/-- Function `get_connection` under `st.cache_resource`: on a cache miss
open a fresh connection (the new handle is the number of connections
opened so far) and cache it; on a hit return the cached handle. -/
def get_connection : ConnState → Conn × ConnState
  | ⟨some c, n⟩ => (c, ⟨some c, n⟩)
  | ⟨none, n⟩ => (n, ⟨some n, n + 1⟩)

/-- A sequence of `k` successive `get_connection` calls, returning the
handles obtained and the final state. -/
def connCalls : Nat → ConnState → List Conn × ConnState
  | 0, s => ([], s)
  | k + 1, s =>
    let (h, s1) := get_connection s
    let (hs, s2) := connCalls k s1
    (h :: hs, s2)

/-! ### Customer-name lookup (src/app.py lines 33-44) -/

/-- Rows of the `Customer` table as far as the lookup query reads them:
`FirstName` and `LastName`. -/
abbrev CustomerTable := List (String × String)

/-- Lexicographic comparison of character lists, modelling SQLite's
ordering of the concatenated names (all inputs here are plain text). -/
def charListLe : List Char → List Char → Bool
  | [], _ => true
  | _ :: _, [] => false
  | a :: as, b :: bs =>
    if a < b then true else if a == b then charListLe as bs else false

/-- Insertion of a string into a sorted list, for `ORDER BY Name`. -/
def insertStr (x : String) : List String → List String
  | [] => [x]
  | y :: ys => if charListLe x.data y.data then x :: y :: ys else y :: insertStr x ys

/-- Insertion sort on strings, for `ORDER BY Name`. -/
def sortStrings : List String → List String
  | [] => []
  | x :: xs => insertStr x (sortStrings xs)

/-- The lookup query of `get_customer_names`:
`SELECT DISTINCT FirstName || ' ' || LastName AS Name FROM Customer ORDER BY Name`. -/
def customerNamesQuery (t : CustomerTable) : List String :=
  sortStrings ((t.map fun r => r.1 ++ " " ++ r.2).dedup)

/-- Function `get_customer_names` under `st.cache_data`: the cached list
is returned whenever present; otherwise the query runs against the
current table and its result is cached. -/
def get_customer_names (t : CustomerTable) (cache : Option (List String)) :
    List String × Option (List String) :=
  match cache with
  | some names => (names, some names)
  | none =>
    let names := customerNamesQuery t
    (names, some names)

/-! ### Query dispatcher and run-button action (src/app.py lines 86-122) -/

/-- The four options of the predefined-query select box. -/
inductive QueryOption
  | ex1Orders
  | ex2Total
  | ex3AllTotals
  | customSQL
deriving DecidableEq

/-- Initial value of the custom-SQL text area (src/app.py line 90). -/
def sampleSQL : String := "SELECT * FROM Customer LIMIT 5;"

/-- Value read from `st.text_area`: the user's current entry when they
have typed into the widget, else the widget's initial value. -/
def textAreaValue (initial : String) (user : Option String) : String :=
  user.getD initial

/-- Lines 86-92: `custom_sql` is the empty string unless the Custom SQL
option is selected, in which case it is the text area's value. -/
def customSqlOf (opt : QueryOption) (user : Option String) : String :=
  if opt = .customSQL then textAreaValue sampleSQL user else ""

/-- Lines 101-114: map the selected option to the SQL string to run. The
helpers `ex1`, `ex2`, `ex3` are imported from `mini_project2` and are
parameters here; per the call sites, `ex1` and `ex2` receive the
connection and the selected customer, `ex3` receives only the
connection. -/
def dispatchSQL (ex1 ex2 : Conn → String → String) (ex3 : Conn → String)
    (conn : Conn) (opt : QueryOption) (selected : String)
    (custom_sql : String) : String :=
  match opt with
  | .ex1Orders => ex1 conn selected
  | .ex2Total => ex2 conn selected
  | .ex3AllTotals => ex3 conn
  | .customSQL => custom_sql

/-- What the results column displays for one press of the Run button. -/
inductive RunDisplay
  | table (df : DataFrame)
  | errorBanner (msg : String)
deriving DecidableEq

/-- Lines 118-122: execute the SQL and render the table, catching any
engine failure as an inline `st.error` banner with the fixed prefix. -/
def runQueryAction (engine : Engine) (sql : String) : RunDisplay :=
  match run_query engine sql with
  | .ok df => .table df
  | .error e => .errorBanner ("Error running query: " ++ e)

/-- The whole run-button press: read the text area, dispatch, show the
SQL, execute it. Returns the dispatched SQL and the rendered result. -/
def runButtonAction (ex1 ex2 : Conn → String → String) (ex3 : Conn → String)
    (engine : Engine) (conn : Conn) (opt : QueryOption) (selected : String)
    (user : Option String) : String × RunDisplay :=
  let sql := dispatchSQL ex1 ex2 ex3 conn opt selected (customSqlOf opt user)
  (sql, runQueryAction engine sql)

/-! ### Ask-AI handler (src/app.py lines 133-193) -/

/-- Outcome of one press of the Ask AI button. -/
inductive AskOutcome
  | warned
  | aiError (msg : String)
  | answered (sql : String) (display : RunDisplay)
deriving DecidableEq

/-- The hosted chat-completion service, as the sequence of results that
successive `create` calls would produce: index `n` is the `n`-th call's
result, an exception message or the first completion's message content. -/
abbrev GroqService := Nat → Except String String

/-- Lines 133-193: the Ask-AI handler. A blank question only warns. A
non-blank question makes exactly one hosted call (index 0 of the
service); a raised exception is rendered as an inline banner and the
action stops; a reply is cleaned of fences and executed, with engine
failures rendered inline. -/
def ask_ai (groq : GroqService) (engine : Engine) (nl_question : String) :
    AskOutcome :=
  if (pyStripWs nl_question).data.isEmpty then .warned
  else
    match groq 0 with
    | .error e => .aiError ("Groq API error: " ++ e)
    | .ok content =>
      let sql := sql_from_ai_clean content
      .answered sql
        (match run_query engine sql with
         | .ok df => .table df
         | .error e => .errorBanner ("SQL execution error: " ++ e))

/-! ### Startup (src/app.py lines 15-20 and 53-63) -/

/-- Coarse trace of what the top of the script renders before (and
including) the point where it stops or reaches the dashboard body. -/
inductive Render
  | missingKeyError
  | loginPrompt
  | dashboard
deriving DecidableEq

/-- Python truthiness of `GROQ_API_KEY`: `not GROQ_API_KEY` holds when
the variable is unset or set to the empty string. -/
def keyFalsy : Option String → Bool
  | none => true
  | some s => s.isEmpty

/-- Line 15: `os.getenv("APP_PASSWORD", "test123")`. -/
def appPasswordOf (env : Option String) : String :=
  env.getD "test123"

/-- Lines 15-20 and 53-63: the script's rendering up to the dashboard
body. A falsy key renders the missing-key error and stops; a wrong
password renders the login prompt and stops; otherwise the dashboard
body renders. -/
def appScript (groqKey : Option String) (appPassword password_input : String) :
    List Render :=
  if keyFalsy groqKey then [.missingKeyError]
  else if password_input ≠ appPassword then [.loginPrompt]
  else [.dashboard]

/-! ### Helper lemmas about the Python string primitives -/

/-- Dropping the leading run of `p`-characters preserves whether every
character satisfies `p`. -/
theorem all_dropWhile_iff (p : Char → Bool) :
    ∀ l : List Char, (∀ c ∈ l.dropWhile p, p c) ↔ ∀ c ∈ l, p c := by
  intro l
  induction l with
  | nil => simp
  | cons a l ih =>
    by_cases h : p a
    · simp [List.dropWhile_cons, h, ih]
    · simp [List.dropWhile_cons, h]

/-- Stripping both ends yields the empty list exactly when every
character satisfies `p`. -/
theorem pyStripList_eq_nil_iff (p : Char → Bool) (l : List Char) :
    pyStripList p l = [] ↔ ∀ c ∈ l, p c := by
  simp [pyStripList, List.dropWhile_eq_nil_iff, all_dropWhile_iff]

/-- The guard of the Ask-AI handler: the stripped question is empty
exactly when the question is all whitespace. -/
theorem blank_iff (q : String) :
    (pyStripWs q).data.isEmpty = true ↔ ∀ c ∈ q.data, c.isWhitespace := by
  simp [pyStripWs, List.isEmpty_iff, pyStripList_eq_nil_iff]

/-- The head left by `dropWhile` does not satisfy the predicate. -/
theorem head?_dropWhile_not (p : Char → Bool) :
    ∀ (l : List Char) (c : Char), (l.dropWhile p).head? = some c → p c = false := by
  intro l
  induction l with
  | nil => intro c h; simp [List.dropWhile] at h
  | cons a l ih =>
    intro c h
    by_cases hp : p a
    · simp only [List.dropWhile_cons, if_pos hp] at h
      exact ih c h
    · simp only [List.dropWhile_cons, if_neg hp, List.head?_cons, Option.some.injEq] at h
      subst h
      exact Bool.eq_false_iff.mpr hp

/-- When `dropWhile` leaves something, the last element is unchanged. -/
theorem getLast?_dropWhile (p : Char → Bool) :
    ∀ l : List Char, l.dropWhile p ≠ [] → (l.dropWhile p).getLast? = l.getLast? := by
  intro l
  induction l with
  | nil => intro h; exact absurd rfl h
  | cons a l ih =>
    intro h
    by_cases hp : p a
    · simp only [List.dropWhile_cons, if_pos hp] at h ⊢
      have hl : l ≠ [] := by
        intro e
        subst e
        simp [List.dropWhile] at h
      rw [ih h]
      cases l with
      | nil => exact absurd rfl hl
      | cons b l2 => exact (List.getLast?_cons_cons).symm
    · simp only [List.dropWhile_cons, if_neg hp]

/-- The first character of a stripped list does not satisfy the stripped
predicate. -/
theorem pyStripList_head?_not (p : Char → Bool) (l : List Char) (c : Char) :
    (pyStripList p l).head? = some c → p c = false := by
  intro h
  unfold pyStripList at h
  rw [List.head?_reverse] at h
  have hne : (l.dropWhile p).reverse.dropWhile p ≠ [] := by
    intro e
    rw [e] at h
    simp at h
  rw [getLast?_dropWhile p _ hne, List.getLast?_reverse] at h
  exact head?_dropWhile_not p _ c h

/-- The last character of a stripped list does not satisfy the stripped
predicate. -/
theorem pyStripList_getLast?_not (p : Char → Bool) (l : List Char) (c : Char) :
    (pyStripList p l).getLast? = some c → p c = false := by
  intro h
  unfold pyStripList at h
  rw [List.getLast?_reverse] at h
  exact head?_dropWhile_not p _ c h

/-- After the first call the connection cache is fixed: every further
call returns the cached handle and opens nothing. -/
theorem connCalls_cached (c n : Nat) :
    ∀ k, connCalls k ⟨some c, n⟩ = (List.replicate k c, ⟨some c, n⟩) := by
  intro k
  induction k with
  | zero => rfl
  | succ k ih => simp [connCalls, get_connection, ih, List.replicate_succ]

/-! ### Claims -/

/-- C1, as stated: the three fence-stripping vectors with the literal
backslash-n sequences as written in the spec. This is false: the cleaner
only strips backticks and whitespace, so the two literal characters
backslash and n survive at both ends, and the first vector does not
reduce to `SELECT 1;`. -/
theorem c1_literal_backslash_counterexample :
    ¬ (sql_from_ai_clean "```sql\\nSELECT 1;\\n```" = "SELECT 1;"
       ∧ sql_from_ai_clean "SELECT 1;" = "SELECT 1;"
       ∧ sql_from_ai_clean "```\\nSELECT 1;\\n```" = "SELECT 1;") := by
  decide

/-- C1, amended: with the `\n` of the spec's vectors read as actual
newline characters, all three fence-stripping vectors hold: the tagged
fenced input and the untagged fenced input both reduce to `SELECT 1;`,
and the unfenced input is unchanged. -/
theorem c1_fence_vectors :
    sql_from_ai_clean "```sql\nSELECT 1;\n```" = "SELECT 1;"
    ∧ sql_from_ai_clean "SELECT 1;" = "SELECT 1;"
    ∧ sql_from_ai_clean "```\nSELECT 1;\n```" = "SELECT 1;" := by
  decide

/-- C2, as stated: it is false that an empty user-supplied custom-SQL
text is replaced by the sample statement. When the user empties the text
area, the dispatched SQL is the empty string, the empty string is
executed (here against an engine that echoes its input in its error),
and the empty string is not the sample statement. -/
theorem c2_empty_custom_counterexample :
    (runButtonAction (fun _ _ => "") (fun _ _ => "") (fun _ => "")
        (fun s => Except.error s) 0 .customSQL "Alice" (some "")).1 = ""
    ∧ (runButtonAction (fun _ _ => "") (fun _ _ => "") (fun _ => "")
        (fun s => Except.error s) 0 .customSQL "Alice" (some "")).2
      = .errorBanner "Error running query: "
    ∧ sampleSQL ≠ "" := by
  refine ⟨rfl, rfl, by decide⟩

/-- C2, amended: in custom mode the dispatcher passes the user-supplied
text through verbatim, including the empty string; the sample statement
`SELECT * FROM Customer LIMIT 5;` is only the text area's initial value,
so it is the dispatched SQL exactly when the user has not entered any
text of their own. -/
theorem c2_custom_dispatch :
    (∀ (e1 e2 : Conn → String → String) (e3 : Conn → String) (conn : Conn)
       (sel s : String) (engine : Engine),
       (runButtonAction e1 e2 e3 engine conn .customSQL sel (some s)).1 = s)
    ∧ (∀ (e1 e2 : Conn → String → String) (e3 : Conn → String) (conn : Conn)
       (sel : String) (engine : Engine),
       (runButtonAction e1 e2 e3 engine conn .customSQL sel none).1 = sampleSQL) := by
  exact ⟨fun _ _ _ _ _ _ _ => rfl, fun _ _ _ _ _ _ => rfl⟩

/-- C3: a question that is empty or all whitespace makes the Ask-AI
handler warn, with an outcome independent of the hosted service (the
call is not invoked); a question with at least one non-whitespace
character makes the handler consult the hosted service (two services
whose first call differs yield different outcomes). -/
theorem c3_blank_question_guard :
    ∀ q : String,
      ((∀ c ∈ q.data, c.isWhitespace) →
        ∀ (g1 g2 : GroqService) (eng : Engine),
          ask_ai g1 eng q = .warned ∧ ask_ai g1 eng q = ask_ai g2 eng q)
      ∧ ((∃ c ∈ q.data, ¬ c.isWhitespace) →
        ∀ eng : Engine,
          ask_ai (fun _ => Except.error "a") eng q
            ≠ ask_ai (fun _ => Except.error "b") eng q) := by
  intro q
  constructor
  · intro hws g1 g2 eng
    have hb : (pyStripWs q).data.isEmpty = true := (blank_iff q).mpr hws
    constructor <;> simp [ask_ai, hb]
  · rintro ⟨c, hc, hcw⟩ eng
    cases hE : (pyStripWs q).data.isEmpty with
    | true => exact absurd ((blank_iff q).mp hE c hc) hcw
    | false =>
      simp only [ask_ai, hE, Bool.false_eq_true, if_false]
      decide

/-- C3 witness: the guard at the one-space question and the
service-sensitivity at a concrete non-blank question. -/
theorem c3_blank_question_guard_witness :
    ask_ai (fun _ => Except.error "a") (fun _ => Except.error "x") " " = .warned
    ∧ ask_ai (fun _ => Except.error "a") (fun _ => Except.error "x") "top 5"
      ≠ ask_ai (fun _ => Except.error "b") (fun _ => Except.error "x") "top 5" :=
  ⟨((c3_blank_question_guard " ").1 (by decide)
      (fun _ => Except.error "a") (fun _ => Except.error "b")
      (fun _ => Except.error "x")).1,
   (c3_blank_question_guard "top 5").2 (by decide) (fun _ => Except.error "x")⟩

/-- C4, as stated: it is false that the inline message's display text is
the engine's message verbatim. At a concrete failing statement the
banner reads `Error running query: no such table: Foo`, not the engine's
message `no such table: Foo` alone. -/
theorem c4_verbatim_counterexample :
    runQueryAction (fun _ => Except.error "no such table: Foo") "SELECT * FROM Foo"
      = .errorBanner "Error running query: no such table: Foo"
    ∧ runQueryAction (fun _ => Except.error "no such table: Foo") "SELECT * FROM Foo"
      ≠ .errorBanner "no such table: Foo" := by
  refine ⟨rfl, by decide⟩

/-- C4, amended: whenever the engine rejects a statement, the Run-query
action catches the failure (it returns an inline banner rather than
propagating) and the banner is the fixed prefix `Error running query: `
followed by the engine's message verbatim. -/
theorem c4_query_error_banner :
    ∀ (engine : Engine) (sql e : String),
      run_query engine sql = .error e →
      runQueryAction engine sql = .errorBanner ("Error running query: " ++ e) := by
  intro engine sql e h
  simp [runQueryAction, h]

/-- C4 witness: the banner at a concrete engine failure. -/
theorem c4_query_error_banner_witness :
    runQueryAction (fun _ => Except.error "boom") "SELEC * FROM Customer"
      = .errorBanner ("Error running query: " ++ "boom") :=
  c4_query_error_banner (fun _ => Except.error "boom") "SELEC * FROM Customer" "boom" rfl

/-- C5: when the hosted call raises, the Ask-AI handler surfaces the raw
exception text inside the inline banner and aborts the action: the
outcome is the banner alone, it does not depend on the database engine
(no SQL is executed), and it depends only on the first result of the
hosted service (exactly one call, no retry). -/
theorem c5_ai_error_aborts :
    ∀ (q e : String) (g : GroqService) (engine : Engine),
      (∃ c ∈ q.data, ¬ c.isWhitespace) →
      g 0 = .error e →
      ask_ai g engine q = .aiError ("Groq API error: " ++ e)
      ∧ (∀ engine2 : Engine, ask_ai g engine2 q = ask_ai g engine q)
      ∧ (∀ g2 : GroqService, g2 0 = g 0 → ask_ai g2 engine q = ask_ai g engine q) := by
  rintro q e g engine ⟨c, hc, hcw⟩ hg
  cases hE : (pyStripWs q).data.isEmpty with
  | true => exact absurd ((blank_iff q).mp hE c hc) hcw
  | false =>
    refine ⟨by simp [ask_ai, hE, hg], fun engine2 => by simp [ask_ai, hE, hg],
      fun g2 hg2 => by simp [ask_ai, hE, hg, hg2]⟩

/-- C5 witness: a concrete rate-limit failure at a concrete non-blank
question. -/
theorem c5_ai_error_aborts_witness :
    ask_ai (fun _ => Except.error "rate limit") (fun _ => Except.error "db") "x"
      = .aiError ("Groq API error: " ++ "rate limit") :=
  (c5_ai_error_aborts "x" "rate limit" (fun _ => Except.error "rate limit")
    (fun _ => Except.error "db") (by decide) rfl).1

/-- C6: a second customer-name lookup made with the cache left by a
first lookup returns exactly the first lookup's list, whatever the
`Customer` table holds at the time of either call. -/
theorem c6_customer_cache_stable :
    ∀ (t1 t2 : CustomerTable) (cache : Option (List String)),
      (get_customer_names t2 (get_customer_names t1 cache).2).1
        = (get_customer_names t1 cache).1 := by
  intro t1 t2 cache
  cases cache <;> rfl

/-- C7: the SQL dispatched in all-totals mode is the same whatever
customer is selected and whatever text sits in the custom-SQL widget,
for every choice of the external helpers. -/
theorem c7_all_totals_selection_independent :
    ∀ (e1 e2 : Conn → String → String) (e3 : Conn → String) (engine : Engine)
      (conn : Conn) (sel1 sel2 : String) (user1 user2 : Option String),
      (runButtonAction e1 e2 e3 engine conn .ex3AllTotals sel1 user1).1
        = (runButtonAction e1 e2 e3 engine conn .ex3AllTotals sel2 user2).1 := by
  intro e1 e2 e3 engine conn sel1 sel2 user1 user2
  rfl

/-- C8: starting from process start, any number of `get_connection`
calls returns the single handle opened by the first call, and at most
one connection is ever opened. -/
theorem c8_single_connection :
    ∀ k : Nat,
      (connCalls k initConnState).1 = List.replicate k 0
      ∧ (connCalls k initConnState).2.openedCount ≤ 1 := by
  intro k
  cases k with
  | zero => exact ⟨rfl, by decide⟩
  | succ k =>
    have h1 : connCalls (k + 1) initConnState
        = (0 :: List.replicate k 0, ⟨some 0, 1⟩) := by
      simp [connCalls, initConnState, get_connection, connCalls_cached 0 1 k]
    rw [h1]
    exact ⟨(List.replicate_succ 0 k).symm, Nat.le_refl 1⟩

/-- C9: with the hosted-model API key absent from the environment, the
script renders the missing-key error and stops: whatever the configured
password and whatever the user typed, nothing further is rendered — no
login prompt and no dashboard body. -/
theorem c9_missing_key_halts :
    ∀ appPassword password_input : String,
      appScript none appPassword password_input = [Render.missingKeyError]
      ∧ Render.loginPrompt ∉ appScript none appPassword password_input
      ∧ Render.dashboard ∉ appScript none appPassword password_input := by
  intro ap pw
  refine ⟨rfl, ?_, ?_⟩ <;> simp [appScript, keyFalsy]

/-- C10: on any reply starting with a triple backtick, the fence block
first removes the whole leading and trailing backtick runs (the
backtick-stripped text never starts or ends with a backtick) and then
applies the case-insensitive `sql`-tag removal to the trimmed remainder;
that removal takes the three characters even when they belong to the
statement itself, as on the fenced reply `sqlite_master`, which loses
its first three characters. -/
theorem c10_fence_strip_behavior :
    (∀ s : String, startsWith3Ticks s = true →
       stripFenceBlock s = sqlTagStrip (pyStripWs (pyStripTicks s)))
    ∧ (∀ (s : String) (c : Char),
        ((pyStripTicks s).data.head? = some c → c ≠ backtick)
        ∧ ((pyStripTicks s).data.getLast? = some c → c ≠ backtick))
    ∧ stripFenceBlock "```sqlite_master```" = "ite_master" := by
  refine ⟨?_, ?_, by decide⟩
  · intro s h
    simp [stripFenceBlock, sqlTagStrip, h]
  · intro s c
    constructor
    · intro h hc
      have := pyStripList_head?_not (· == backtick) s.data c h
      simp [hc] at this
    · intro h hc
      have := pyStripList_getLast?_not (· == backtick) s.data c h
      simp [hc] at this

/-- C10 witness: the general equation at a concrete fenced reply, and
the backtick-free ends at a concrete input. -/
theorem c10_fence_strip_behavior_witness :
    stripFenceBlock "```abc```" = sqlTagStrip (pyStripWs (pyStripTicks "```abc```"))
    ∧ ('x' : Char) ≠ backtick :=
  ⟨c10_fence_strip_behavior.1 "```abc```" (by decide),
   (c10_fence_strip_behavior.2.1 "```x```" 'x').1 (by decide)⟩

end SalesDashboard
